import Mathlib

/-!
Verification development for the YuanMingYuan LODLAM repository.

Shallow embedding of the heuristic triple-construction engine:
  * `src/CSV items files/csv_to_rdf.py` — term resolution
    (`clean_uri_string`, `create_uri`, `parse_property`, `is_literal_value`,
    `should_be_uri`), the per-source/per-row build loop of `csv_to_rdf`,
    and the serialization tail (`export_rdf_xml`).
  * `src/Knwoledge Representation/tei_to_rdf.py` — the header-metadata
    extraction block, the boxers-organizer graph lookup, and the
    serialization tail.
  * `src/Knwoledge Representation/xml_to_html.py` — the unguarded
    header-metadata extraction of `tei_to_html`.

Python strings are modelled over `List Char`; Python `str.strip`,
`str.lower`, `str.startswith`, `in` (substring), `str.replace` and
`str.split(c, 1)` are given executable models below.  Character class
functions (`isupper`, `\w`) are modelled over ASCII, which covers every
input appearing in the theorems.
-/

namespace Lodlam

/-- Python whitespace characters stripped by `str.strip()` (ASCII subset). -/
def isPyWhite (c : Char) : Bool :=
  c == ' ' || c == '\t' || c == '\n' || c == '\r' || c == '\x0b' || c == '\x0c'

/-- Model of `startswith` on character lists. -/
def listStartsWith : List Char → List Char → Bool
  | _, [] => true
  | [], _ :: _ => false
  | a :: as, b :: bs => a == b && listStartsWith as bs

/-- Model of Python substring containment (`pat in hay`). -/
def listHasSub : List Char → List Char → Bool
  | hay, pat =>
    match hay with
    | [] => listStartsWith [] pat
    | _ :: t => listStartsWith hay pat || listHasSub t pat

/-- Right half of `str.strip()`: drop trailing whitespace. -/
def trimRightList (l : List Char) : List Char :=
  (l.reverse.dropWhile isPyWhite).reverse

/-- Model of Python `str.strip()` on character lists. -/
def pyStripList (l : List Char) : List Char :=
  trimRightList (l.dropWhile isPyWhite)

/-- Model of Python `str.strip()`. -/
def pyStrip (s : String) : String := String.mk (pyStripList s.data)

/-- Model of Python `str.startswith`. -/
def pyStartsWith (s t : String) : Bool := listStartsWith s.data t.data

/-- Model of Python `pat in s` (substring containment). -/
def strContains (s pat : String) : Bool := listHasSub s.data pat.data

/-- Model of Python `str.lower()` (ASCII). -/
def pyLower (s : String) : String := String.mk (s.data.map Char.toLower)

/-- Split a list at the first occurrence of `c`
(model of Python `s.split(c, 1)` when it really splits). -/
def splitFirst (c : Char) : List Char → Option (List Char × List Char)
  | [] => none
  | a :: t =>
    if a == c then some ([], t)
    else
      match splitFirst c t with
      | none => none
      | some (pre, post) => some (a :: pre, post)

/-- Decimal digits of a natural number, most significant first
(model of Python `str` on a nonnegative `int`). -/
def natDigits (n : Nat) : List Char :=
  if _h : n < 10 then [Nat.digitChar n]
  else natDigits (n / 10) ++ [Nat.digitChar (n % 10)]
  decreasing_by
    exact Nat.div_lt_self (by omega) (by omega)

/-- Model of Python `str` on an `int`. -/
def intRepr (n : Int) : String :=
  if n < 0 then String.mk ('-' :: natDigits n.natAbs)
  else String.mk (natDigits n.natAbs)

/-- A strip-sign step of the numeric parse (`float` accepts one leading sign). -/
def dropSign : List Char → List Char
  | [] => []
  | a :: t => if a == '+' || a == '-' then t else a :: t

def digitsOnly (l : List Char) : Bool := l.all Char.isDigit

/-- Mantissa of a Python float literal: digits with an optional dot,
at least one digit overall. -/
def mantissaOk (l : List Char) : Bool :=
  match splitFirst '.' l with
  | none => !l.isEmpty && digitsOnly l
  | some (a, b) => digitsOnly a && digitsOnly b && (!a.isEmpty || !b.isEmpty)

def expPartOk (l : List Char) : Bool :=
  let t := dropSign l
  !t.isEmpty && digitsOnly t

def floatBodyOk (l : List Char) : Bool :=
  match splitFirst 'e' l with
  | none => mantissaOk l
  | some (m, e) => mantissaOk m && expPartOk e

/-- Equality of character lists. -/
def listEqChar : List Char → List Char → Bool
  | [], [] => true
  | a :: as, b :: bs => a == b && listEqChar as bs
  | _, _ => false

/-- Model of the success of Python `float(s)` on a string: strip, optional
sign, then `inf`/`infinity`/`nan` (case-insensitive) or a decimal literal
with optional exponent.  (Python additionally allows `_` digit grouping,
which no input in this development uses.) -/
def pyFloatParsesStr (s : String) : Bool :=
  let l := dropSign (pyStripList s.data)
  let low := l.map Char.toLower
  listEqChar low "inf".data || listEqChar low "infinity".data ||
    listEqChar low "nan".data || floatBodyOk low

/-- A cell value as it reaches the row loop of `csv_to_rdf`: a string, a
native integer, or a native float (the float carries its Python `str`
representation, which is all the classifier inspects). -/
inductive Value
  | vStr (s : String)
  | vInt (n : Int)
  | vFloat (r : String)
deriving DecidableEq, Repr

/-- Model of Python `str(value)`. -/
def pyStr : Value → String
  | .vStr s => s
  | .vInt n => intRepr n
  | .vFloat r => r

/-- Success of Python `float(value)` for a cell value. -/
def pyFloatOk : Value → Bool
  | .vInt _ => true
  | .vFloat _ => true
  | .vStr s => pyFloatParsesStr s

/-- Namespace bases bound in `csv_to_rdf.py` (rdflib constants). -/
def rdfNS : String := "http://www.w3.org/1999/02/22-rdf-syntax-ns#"
def rdfsNS : String := "http://www.w3.org/2000/01/rdf-schema#"
def dctermsNS : String := "http://purl.org/dc/terms/"
def dcNS : String := "http://purl.org/dc/elements/1.1/"
def foafNS : String := "http://xmlns.com/foaf/0.1/"
def schemaNS : String := "http://schema.org/"
def edmNS : String := "http://www.europeana.eu/schemas/edm/"
def crmNS : String := "http://www.cidoc-crm.org/cidoc-crm/"
def owlNS : String := "http://www.w3.org/2002/07/owl#"
def exBase : String := "http://example.org/lodlam/"
def xsdNS : String := "http://www.w3.org/2001/XMLSchema#"
def xsdInteger : String := xsdNS ++ "integer"
def xsdFloat : String := xsdNS ++ "float"
def xsdDate : String := xsdNS ++ "date"

/-- A graph node: a URI reference or a literal with optional datatype and
optional language tag (rdflib `URIRef` / `Literal`). -/
inductive Node
  | uri (u : String)
  | lit (lex : String) (dt : Option String) (lang : Option String)
deriving DecidableEq, Repr

def Node.isLit : Node → Bool
  | .lit _ _ _ => true
  | .uri _ => false

/-- Model of `clean_uri_string` (csv_to_rdf.py lines 38-48): remove `(`, `)` and `,`
(the regex `[(),]`), replace the space character with `_`
(`text.replace(' ', '_')`), then keep only word characters, `-`, `_`, `.`
(the regex `[^\w\-_.]`, `\w` modelled over ASCII). -/
def clean_uri_list (l : List Char) : List Char :=
  let l1 := l.filter (fun c => !(c == '(' || c == ')' || c == ','))
  let l2 := l1.map (fun c => if c == ' ' then '_' else c)
  l2.filter (fun c => c.isAlphanum || c == '_' || c == '-' || c == '.')

def clean_uri_string (s : String) : String := String.mk (clean_uri_list s.data)

/-- Model of `create_uri` (csv_to_rdf.py lines 50-64): strip, pass absolute URLs
through unchanged, otherwise mint `EX[clean_uri_string(text)]`. -/
def create_uri_str (v : Value) : String :=
  let t := pyStrip (pyStr v)
  if pyStartsWith t "http://" || pyStartsWith t "https://" then t
  else exBase ++ clean_uri_string t

/-- The prefix table of `parse_property` (csv_to_rdf.py lines 72-83). -/
def namespace_map : List (String × String) :=
  [("rdf", rdfNS), ("rdfs", rdfsNS), ("dcterms", dctermsNS), ("dc", dcNS),
   ("foaf", foafNS), ("schema", schemaNS), ("edm", edmNS), ("crm", crmNS),
   ("owl", owlNS), ("ex", exBase)]

def nsLookup (p : String) : Option String :=
  (namespace_map.find? (fun kv => kv.1 == p)).map (·.2)

/-- All-colons-to-underscores (Python `str.replace(':', '_')`). -/
def pyReplaceColonUnderscore (s : String) : String :=
  String.mk (s.data.map (fun c => if c == ':' then '_' else c))

/-- Model of `parse_property` (csv_to_rdf.py lines 66-101): strip; split on the first
colon; look the lower-cased prefix up in `namespace_map`;
found → `ns[local]` (rdflib: base ++ local), unknown → `EX[str.replace(':','_')]`;
no colon → `EX[property_str]`. -/
def parse_property (p : String) : String :=
  let l := pyStripList p.data
  match splitFirst ':' l with
  | some (pre, loc) =>
    match nsLookup (String.mk (pre.map Char.toLower)) with
    | some base => base ++ String.mk loc
    | none => exBase ++ pyReplaceColonUnderscore (String.mk l)
  | none => exBase ++ String.mk l

def dateIndicators : List String :=
  ["century", "dynasty", "period", "year", "ad", "bc", "-"]

def unitIndicators : List String :=
  ["cm", "mm", "inch", "meter", "kg", "×"]

def phraseIndicators : List String :=
  ["made of", "consists of", "located at", "depicts", "shows",
   "approximately", "height", "width", "print", "photograph"]

/-- Model of `is_literal_value` (csv_to_rdf.py lines 103-133): lower-case the text,
then check temporal markers, unit markers, a successful `float(value)`
parse, and descriptive-phrase markers (all substring checks). -/
def is_literal_value (v : Value) : Bool :=
  let s := pyLower (pyStr v)
  dateIndicators.any (fun ind => strContains s ind)
  || unitIndicators.any (fun u => strContains s u)
  || pyFloatOk v
  || phraseIndicators.any (fun w => strContains s w)

/-- Model of `should_be_uri` (csv_to_rdf.py lines 135-151): strip; text starting with
`http` is a URI; otherwise nonempty text with an uppercase first character
and no literal indicator is a URI. -/
def should_be_uri (v : Value) : Bool :=
  let t := pyStrip (pyStr v)
  pyStartsWith t "http" ||
    (match t.data with
     | [] => false
     | c :: _ => c.isUpper && !(is_literal_value v))

/-- The object-classification logic of the row loop
(csv_to_rdf.py lines 213-221): URIs via `should_be_uri`/`create_uri`,
native ints/floats as typed literals, everything else as a plain string
literal. -/
def classify_object (v : Value) : Node :=
  if should_be_uri v then .uri (create_uri_str v)
  else
    match v with
    | .vInt n => .lit (intRepr n) (some xsdInteger) none
    | .vFloat r => .lit r (some xsdFloat) none
    | .vStr s => .lit s none none

/-- First character of the raw text is an uppercase letter
(Python `value_str[0].isupper()`, ASCII). -/
def firstCharUpper (s : String) : Bool :=
  match s.data with
  | [] => false
  | c :: _ => c.isUpper

/-- The ten decimal digit characters. -/
def digitChars : List Char := ['0', '1', '2', '3', '4', '5', '6', '7', '8', '9']

/-- Shape of the Python `str` representation of a float: it starts with a
digit, a minus sign, or the first letter of `inf`/`nan`. -/
def floatReprOk (r : String) : Bool :=
  match r.data with
  | [] => false
  | c :: _ => digitChars.contains c || c == '-' || c == 'i' || c == 'n'

/-- An RDF triple; subject and predicate are always URIs in this program. -/
structure Triple where
  s : String
  p : String
  o : Node
deriving DecidableEq, Repr

/-- A pandas row as the loop body sees it: an assignment of cell values to
column labels.  A label the loop body cannot find models the per-row
exception that the inner try/except of `csv_to_rdf` is there to catch. -/
abbrev Row := List (String × Value)

def rowGet (r : Row) (c : String) : Option Value :=
  (r.find? (fun kv => kv.1 == c)).map (·.2)

/-- A tabular source: either `pd.read_csv` raises (file missing or
unparseable), or it yields a header (column labels) and rows. -/
inductive Source
  | unreadable (name : String)
  | table (name : String) (columns : List String) (rows : List Row)

/-- The three required columns checked by `csv_to_rdf` (line 195). -/
def requiredCols : List String := ["Subject", "Property", "Object"]

/-- The row-loop body of `csv_to_rdf` (lines 203-225): subject via
`create_uri`, predicate via `parse_property`, object via the
classification logic; any failure surfaces as the caught exception. -/
def processRow (r : Row) : Except String Triple :=
  match rowGet r "Subject" with
  | none => .error "KeyError: Subject"
  | some sv =>
    match rowGet r "Property" with
    | none => .error "KeyError: Property"
    | some pv =>
      match rowGet r "Object" with
      | none => .error "KeyError: Object"
      | some ov =>
        .ok ⟨create_uri_str sv, parse_property (pyStr pv), classify_object ov⟩

/-- The indexed row loop of `csv_to_rdf` (lines 202-229): a failing row is
logged with its index and skipped, the remaining rows continue. -/
def processRows : Nat → List Row → List Triple × List String
  | _, [] => ([], [])
  | idx, r :: rs =>
    let rest := processRows (idx + 1) rs
    match processRow r with
    | .ok t => (t :: rest.1, rest.2)
    | .error e =>
      (rest.1, ("  WARNING: Error processing row " ++ toString idx ++ ": " ++ e)
        :: rest.2)

/-- Per-source processing of `csv_to_rdf` (lines 190-236): an unreadable
source or one with missing required columns contributes no triples, emits a
diagnostic, and the batch continues. -/
def processSource : Source → List Triple × List String
  | .unreadable name => ([], ["  ERROR: Could not read file " ++ name])
  | .table name columns rows =>
    if requiredCols.all (fun c => columns.contains c) then processRows 0 rows
    else ([], ["  ERROR: Missing required columns in " ++ name])

/-- One step of the build loop: the graph accumulator receives the triples
of one source (`g.add` calls, lines 224). -/
def csvBuildStep (g : List Triple) (src : Source) : List Triple :=
  g ++ (processSource src).1

/-- The build phase of `csv_to_rdf` (lines 164-236): fold the sources over
the graph accumulator, which starts empty in the source (`g = Graph()`). -/
def csv_to_rdf_build (g : List Triple) (sources : List Source) : List Triple :=
  sources.foldl csvBuildStep g

/-- The log of `export_rdf_xml` (csv_to_rdf.py lines 253-265): the RDF/XML
serialization is wrapped in try/except, so its failure is reported and
swallowed. -/
def export_rdf_xml_log (writable : String → Bool) : List String :=
  if writable "xml" then ["  ✓ RDF/XML format saved: lodlam_dataset.rdf"]
  else ["  ✗ RDF/XML export failed"]

/-- The whole CSV run (`csv_to_rdf` followed by `export_rdf_xml` as in
`__main__`, lines 243-265 and 306-328): the primary Turtle serialization
(line 248) is NOT guarded, so its failure propagates and aborts the run;
the secondary RDF/XML export is guarded.  `writable f` models whether the
serialization target for format `f` is writable. -/
def csv_run (sources : List Source) (writable : String → Bool) :
    Except String (List Triple × List String) :=
  let g := csv_to_rdf_build [] sources
  if writable "turtle" then Except.ok (g, export_rdf_xml_log writable)
  else Except.error "SerializationError: turtle"

/-- The serialization tail of `tei_to_rdf` (tei_to_rdf.py lines 260-268):
both the Turtle and the RDF/XML serialization are unguarded, so either
failure propagates out of `tei_to_rdf`. -/
def tei_serialize (writable : String → Bool) : Except String Unit :=
  if writable "turtle" then
    if writable "xml" then Except.ok () else Except.error "SerializationError: xml"
  else Except.error "SerializationError: turtle"

def teiBase : String := "http://example.org/boxer_protocol/"
def teiDocUri : String := teiBase ++ "ImperialEdict_1901_02_13"
def boxersUri : String := teiBase ++ "boxers"
def boxerRebellionUri : String := teiBase ++ "BoxerRebellion"

/-- The boxers-organizer step of `tei_to_rdf` (lines 247-250): the build
phase performs a membership test `(boxers_uri, None, None) in g` on the
graph accumulator and adds the organizer triple only when `boxers` occurs
as a subject of the graph built so far. -/
def tei_link_boxers (g : List Triple) : List Triple :=
  if g.any (fun t => t.s == boxersUri) then
    g ++ [⟨boxerRebellionUri, schemaNS ++ "organizer", .uri boxersUri⟩]
  else g

/-- A concrete graph state in which `boxers` was declared (as it is when
the TEI back matter lists the Boxers organization). -/
def gBoxersDemo : List Triple :=
  [⟨boxersUri, rdfNS ++ "type", .uri (foafNS ++ "Organization")⟩]

/-- The TEI header fields that `tei_to_html` and `tei_to_rdf` extract: each
field is the (possibly empty) list an xpath query returns. -/
structure TEIDoc where
  titles : List String
  authors : List String
  pubDates : List String
  pubPlaces : List String
  sourceDescs : List String

def teiAuthorUri : String := teiBase ++ "QingImperialCourt"
def teiPlaceUri : String := teiBase ++ "Beijing"

/-- Document-type triples of `tei_to_rdf` (lines 46-48), added before any
header extraction. -/
def docTypeTriples : List Triple :=
  [⟨teiDocUri, rdfNS ++ "type", .uri (schemaNS ++ "HistoricalDocument")⟩,
   ⟨teiDocUri, rdfNS ++ "type", .uri (foafNS ++ "Document")⟩,
   ⟨teiDocUri, rdfNS ++ "type", .uri (crmNS ++ "E31_Document")⟩]

/-- Title try-block of `tei_to_rdf` (lines 51-56): `[0]` on the xpath list
raises when empty, the except swallows it and no triple is added. -/
def titleTriples (d : TEIDoc) : List Triple :=
  match d.titles.head? with
  | some title =>
    [⟨teiDocUri, dcNS ++ "title", .lit title none (some "en")⟩,
     ⟨teiDocUri, dctermsNS ++ "title", .lit title none (some "en")⟩]
  | none => []

/-- Author try-block of `tei_to_rdf` (lines 58-66). -/
def authorTriples (d : TEIDoc) : List Triple :=
  match d.authors.head? with
  | some author =>
    [⟨teiAuthorUri, rdfNS ++ "type", .uri (foafNS ++ "Organization")⟩,
     ⟨teiAuthorUri, foafNS ++ "name", .lit author none (some "en")⟩,
     ⟨teiDocUri, dcNS ++ "creator", .uri teiAuthorUri⟩,
     ⟨teiDocUri, dctermsNS ++ "creator", .uri teiAuthorUri⟩]
  | none => []

/-- Date try-block of `tei_to_rdf` (lines 68-74). -/
def dateTriples (d : TEIDoc) : List Triple :=
  match d.pubDates.head? with
  | some ds =>
    [⟨teiDocUri, dcNS ++ "date", .lit ds (some xsdDate) none⟩,
     ⟨teiDocUri, dctermsNS ++ "created", .lit ds (some xsdDate) none⟩,
     ⟨teiDocUri, schemaNS ++ "dateCreated", .lit ds (some xsdDate) none⟩]
  | none => []

/-- Publication-place try-block of `tei_to_rdf` (lines 76-83). -/
def placeTriples (d : TEIDoc) : List Triple :=
  match d.pubPlaces.head? with
  | some place =>
    [⟨teiPlaceUri, rdfNS ++ "type", .uri (schemaNS ++ "Place")⟩,
     ⟨teiPlaceUri, foafNS ++ "name", .lit place none (some "en")⟩,
     ⟨teiDocUri, schemaNS ++ "locationCreated", .uri teiPlaceUri⟩]
  | none => []

/-- Source-description try-block of `tei_to_rdf` (lines 85-90). -/
def descTriples (d : TEIDoc) : List Triple :=
  match d.sourceDescs.head? with
  | some sd =>
    [⟨teiDocUri, dcNS ++ "description", .lit sd none (some "en")⟩,
     ⟨teiDocUri, dctermsNS ++ "description", .lit sd none (some "en")⟩]
  | none => []

/-- Language triples of `tei_to_rdf` (lines 93-94), added unconditionally
after all the header try-blocks. -/
def langTriples : List Triple :=
  [⟨teiDocUri, dcNS ++ "language", .lit "en" none none⟩,
   ⟨teiDocUri, dctermsNS ++ "language", .lit "eng" none none⟩]

/-- The header-metadata portion of `tei_to_rdf` (lines 43-94): every field
extraction is an independent try/except, so the function is total and a
missing field merely omits its triples. -/
def tei_to_rdf_meta (d : TEIDoc) : List Triple :=
  docTypeTriples ++ titleTriples d ++ authorTriples d ++ dateTriples d
    ++ placeTriples d ++ descTriples d ++ langTriples

/-- Model of `tei_to_html` (xml_to_html.py lines 15-30 and 340-341): the
four header extractions take `[0]` of an xpath result list with no guard,
so a missing field raises IndexError before anything is written and no
output file is produced (the write happens only at the very end).  Body
and index rendering are not modelled: they run after these extractions and
cannot prevent the IndexError. -/
def tei_to_html (d : TEIDoc) : Except String String :=
  match d.titles.head? with
  | none => .error "IndexError"
  | some title =>
    match d.authors.head? with
    | none => .error "IndexError"
    | some author =>
      match d.pubDates.head? with
      | none => .error "IndexError"
      | some date =>
        match d.pubPlaces.head? with
        | none => .error "IndexError"
        | some place =>
          .ok ("<h1>" ++ title ++ "</h1><p><strong>Author:</strong> " ++ author
            ++ "</p><p><strong>Date:</strong> " ++ date
            ++ "</p><p><strong>Place:</strong> " ++ place ++ "</p>")

/-- Modelled from the spec: the sanitize step of `mint_reference` exactly
as the spec words it — strip parentheses and commas, replace internal
whitespace with underscores, strip any remaining character outside word
characters, hyphen, underscore and period.  Used only to compare the
spec's wording with `clean_uri_string`. -/
def clean_uri_spec (s : String) : String :=
  let l1 := s.data.filter (fun c => !(c == '(' || c == ')' || c == ','))
  let l2 := l1.map (fun c => if isPyWhite c then '_' else c)
  String.mk (l2.filter (fun c => c.isAlphanum || c == '_' || c == '-' || c == '.'))

/-- Modelled from the spec: `mint_reference` on trimmed text as the spec
words it, with the spec's sanitize step. -/
def mint_reference_spec (s : String) : String :=
  if pyStartsWith s "http://" || pyStartsWith s "https://" then s
  else exBase ++ clean_uri_spec s

/-- The amended sanitize step: only the space character is replaced by an
underscore; all other whitespace falls to the final character filter. -/
def clean_uri_spec_fixed (s : String) : String :=
  let l1 := s.data.filter (fun c => !(c == '(' || c == ')' || c == ','))
  let l2 := l1.map (fun c => if c == ' ' then '_' else c)
  String.mk (l2.filter (fun c => c.isAlphanum || c == '_' || c == '-' || c == '.'))

/-- The amended `mint_reference` on trimmed text. -/
def mint_reference_spec_fixed (s : String) : String :=
  if pyStartsWith s "http://" || pyStartsWith s "https://" then s
  else exBase ++ clean_uri_spec_fixed s

/-- A well-formed demo row. -/
def demoRow1 : Row :=
  [("Subject", .vStr "Throne"), ("Property", .vStr "dcterms:creator"),
   ("Object", .vStr "Qing Dynasty Workshop")]

/-- A demo row whose shape makes the loop body raise (no Property cell). -/
def demoRowBad : Row := [("Subject", .vStr "Throne")]

/-- A second well-formed demo row. -/
def demoRow2 : Row :=
  [("Subject", .vStr "Throne"), ("Property", .vStr "ex:height"),
   ("Object", .vStr "85 cm")]

/-- A demo source with valid columns and one failing row in the middle. -/
def demoTable : Source :=
  .table "5__Throne.csv" requiredCols [demoRow1, demoRowBad, demoRow2]

/-- A demo source missing the required Object column. -/
def demoBad : Source := .table "broken.csv" ["Subject", "Property"] [demoRow1]

/-! Helper lemmas about the string models. -/

theorem listStartsWith_iff (pat l : List Char) :
    listStartsWith l pat = true ↔ ∃ t, l = pat ++ t := by
  induction pat generalizing l with
  | nil =>
    simp [listStartsWith]
  | cons b bs ih =>
    cases l with
    | nil => simp [listStartsWith]
    | cons a as =>
      simp only [listStartsWith, Bool.and_eq_true, beq_iff_eq, ih]
      constructor
      · rintro ⟨rfl, t, rfl⟩
        exact ⟨t, rfl⟩
      · rintro ⟨t, h⟩
        injection h with h1 h2
        exact ⟨h1, t, h2⟩

theorem listStartsWith_append (pat t : List Char) :
    listStartsWith (pat ++ t) pat = true :=
  (listStartsWith_iff pat (pat ++ t)).mpr ⟨t, rfl⟩

theorem dropWhile_all_false {p : Char → Bool} {l : List Char}
    (h : ∀ c ∈ l, p c = false) : l.dropWhile p = l := by
  cases l with
  | nil => rfl
  | cons a t => simp [List.dropWhile_cons, h a (List.mem_cons_self a t)]

theorem trimRight_append (a b : List Char) :
    trimRightList (a ++ b) =
      if trimRightList b = [] then trimRightList a else a ++ trimRightList b := by
  unfold trimRightList
  rw [List.reverse_append, List.dropWhile_append]
  by_cases h : (b.reverse.dropWhile isPyWhite).isEmpty
  · have hb : b.reverse.dropWhile isPyWhite = [] := by simpa using h
    simp [h, hb]
  · have hb : ¬(b.reverse.dropWhile isPyWhite = []) := by simpa using h
    simp [h, hb]

theorem trimRight_all_nonwhite (l : List Char)
    (h : ∀ c ∈ l, isPyWhite c = false) : trimRightList l = l := by
  unfold trimRightList
  rw [dropWhile_all_false (fun c hc => h c (List.mem_reverse.mp hc)),
    List.reverse_reverse]

theorem strip_head (c : Char) (t : List Char) (h : isPyWhite c = false) :
    ∃ t2, pyStripList (c :: t) = c :: t2 := by
  unfold pyStripList
  rw [List.dropWhile_cons]
  simp only [h, Bool.false_eq_true, if_false]
  rw [show c :: t = [c] ++ t from rfl, trimRight_append]
  by_cases ht : trimRightList t = []
  · rw [if_pos ht, trimRight_all_nonwhite [c]]
    · exact ⟨[], rfl⟩
    · intro x hx
      simp at hx
      subst hx
      exact h
  · rw [if_neg ht]
    exact ⟨trimRightList t, rfl⟩

theorem strip_startsWith (l pat : List Char) (hw : ∀ c ∈ pat, isPyWhite c = false)
    (hne : pat ≠ []) (h : listStartsWith l pat = true) :
    listStartsWith (pyStripList l) pat = true := by
  obtain ⟨rest, rfl⟩ := (listStartsWith_iff pat l).mp h
  cases pat with
  | nil => exact absurd rfl hne
  | cons p pt =>
    unfold pyStripList
    have hp : isPyWhite p = false := hw p (List.mem_cons_self p pt)
    rw [show (p :: pt) ++ rest = p :: (pt ++ rest) from rfl, List.dropWhile_cons]
    simp only [hp, Bool.false_eq_true, if_false]
    rw [show p :: (pt ++ rest) = (p :: pt) ++ rest from rfl, trimRight_append]
    by_cases hr : trimRightList rest = []
    · rw [if_pos hr, trimRight_all_nonwhite _ hw]
      exact (listStartsWith_iff _ _).mpr ⟨[], (List.append_nil _).symm⟩
    · rw [if_neg hr]
      exact listStartsWith_append _ _

theorem isUpper_not_white (c : Char) (h : c.isUpper = true) :
    isPyWhite c = false := by
  cases hw : isPyWhite c with
  | false => rfl
  | true =>
    exfalso
    unfold isPyWhite at hw
    simp only [Bool.or_eq_true, beq_iff_eq] at hw
    rcases hw with ((((h1 | h1) | h1) | h1) | h1) | h1 <;> subst h1 <;>
      exact absurd h (by decide)

theorem mem_digitChars_facts (c : Char) (h : c ∈ digitChars) :
    isPyWhite c = false ∧ c.isUpper = false ∧ (c == 'h') = false := by
  simp only [digitChars] at h
  fin_cases h <;> exact ⟨by decide, by decide, by decide⟩

theorem natDigits_head (n : Nat) : ∃ c t, natDigits n = c :: t ∧ c ∈ digitChars := by
  induction n using Nat.strong_induction_on with
  | _ n ih =>
    unfold natDigits
    split
    · next h =>
      refine ⟨Nat.digitChar n, [], rfl, ?_⟩
      interval_cases n <;> decide
    · next h =>
      obtain ⟨c, t, heq, hc⟩ := ih (n / 10) (Nat.div_lt_self (by omega) (by omega))
      exact ⟨c, t ++ [Nat.digitChar (n % 10)], by rw [heq]; rfl, hc⟩

theorem intRepr_head (n : Int) :
    ∃ c t, (intRepr n).data = c :: t ∧ (c ∈ digitChars ∨ c = '-') := by
  unfold intRepr
  split
  · exact ⟨'-', natDigits n.natAbs, rfl, Or.inr rfl⟩
  · obtain ⟨c, t, heq, hc⟩ := natDigits_head n.natAbs
    exact ⟨c, t, heq, Or.inl hc⟩

theorem should_be_uri_false_of_head (v : Value) (c : Char) (t : List Char)
    (hd : (pyStr v).data = c :: t)
    (hw : isPyWhite c = false) (hup : c.isUpper = false) (hh : (c == 'h') = false) :
    should_be_uri v = false := by
  obtain ⟨t2, ht2⟩ := strip_head c t hw
  have hdata : (pyStrip (pyStr v)).data = c :: t2 := by
    show pyStripList (pyStr v).data = c :: t2
    rw [hd]
    exact ht2
  have h1 : pyStartsWith (pyStrip (pyStr v)) "http" = false := by
    show listStartsWith (pyStrip (pyStr v)).data "http".data = false
    rw [hdata, show "http".data = ['h', 't', 't', 'p'] from rfl,
      show listStartsWith (c :: t2) ['h', 't', 't', 'p']
        = ((c == 'h') && listStartsWith t2 ['t', 't', 'p']) from rfl,
      hh, Bool.false_and]
  show (pyStartsWith (pyStrip (pyStr v)) "http" ||
        (match (pyStrip (pyStr v)).data with
         | [] => false
         | c :: _ => c.isUpper && !(is_literal_value v))) = false
  rw [h1, Bool.false_or, hdata]
  show (c.isUpper && !(is_literal_value v)) = false
  rw [hup, Bool.false_and]

theorem splitFirst_append (c : Char) (pre post : List Char)
    (h : ∀ a ∈ pre, (a == c) = false) :
    splitFirst c (pre ++ c :: post) = some (pre, post) := by
  induction pre with
  | nil => simp [splitFirst]
  | cons a t ih =>
    have ha : (a == c) = false := h a (List.mem_cons_self a t)
    have iht := ih (fun x hx => h x (List.mem_cons_of_mem a hx))
    simp [splitFirst, ha, iht]

theorem splitFirst_none (c : Char) (l : List Char)
    (h : ∀ a ∈ l, (a == c) = false) : splitFirst c l = none := by
  induction l with
  | nil => rfl
  | cons a t ih =>
    have ha : (a == c) = false := h a (List.mem_cons_self a t)
    simp [splitFirst, ha, ih (fun x hx => h x (List.mem_cons_of_mem a hx))]

theorem splitFirst_cons_ne (c a : Char) (t : List Char) (h : (a == c) = false) :
    splitFirst c (a :: t) =
      match splitFirst c t with
      | none => none
      | some (pre, post) => some (a :: pre, post) := by
  simp [splitFirst, h]

theorem mantissaOk_head_bad (a : Char) (m : List Char)
    (hd : a.isDigit = false) (hdot : (a == '.') = false) :
    mantissaOk (a :: m) = false := by
  unfold mantissaOk
  rw [splitFirst_cons_ne '.' a m hdot]
  cases hsf : splitFirst '.' m with
  | none => simp [hsf, digitsOnly, hd]
  | some pr =>
    obtain ⟨pre, post⟩ := pr
    simp [hsf, digitsOnly, hd]

theorem floatBodyOk_head_bad (a : Char) (m : List Char)
    (hd : a.isDigit = false) (hdot : (a == '.') = false) (he : (a == 'e') = false) :
    floatBodyOk (a :: m) = false := by
  unfold floatBodyOk
  rw [splitFirst_cons_ne 'e' a m he]
  cases hsf : splitFirst 'e' m with
  | none => simp [hsf, mantissaOk_head_bad a m hd hdot]
  | some pr =>
    obtain ⟨pre, post⟩ := pr
    simp [hsf, mantissaOk_head_bad a pre hd hdot]

theorem pyFloatParses_not_http (s : String) (h : pyFloatParsesStr s = true) :
    pyStartsWith (pyStrip s) "http" = false := by
  cases hl : pyStartsWith (pyStrip s) "http" with
  | false => rfl
  | true =>
    exfalso
    have hls : listStartsWith (pyStripList s.data) "http".data = true := hl
    obtain ⟨rest, hr⟩ := (listStartsWith_iff _ _).mp hls
    have hr2 : pyStripList s.data = 'h' :: ('t' :: 't' :: 'p' :: rest) := hr
    have h2 : (listEqChar ((dropSign (pyStripList s.data)).map Char.toLower) "inf".data
        || listEqChar ((dropSign (pyStripList s.data)).map Char.toLower) "infinity".data
        || listEqChar ((dropSign (pyStripList s.data)).map Char.toLower) "nan".data
        || floatBodyOk ((dropSign (pyStripList s.data)).map Char.toLower)) = true := h
    rw [hr2,
      show dropSign ('h' :: ('t' :: 't' :: 'p' :: rest))
        = 'h' :: ('t' :: 't' :: 'p' :: rest) from rfl,
      show ('h' :: ('t' :: 't' :: 'p' :: rest)).map Char.toLower
        = 'h' :: ('t' :: 't' :: 'p' :: rest.map Char.toLower) from rfl,
      floatBodyOk_head_bad 'h' _ (by decide) (by decide) (by decide),
      show listEqChar ('h' :: ('t' :: 't' :: 'p' :: rest.map Char.toLower)) "inf".data
        = false from rfl,
      show listEqChar ('h' :: ('t' :: 't' :: 'p' :: rest.map Char.toLower)) "infinity".data
        = false from rfl,
      show listEqChar ('h' :: ('t' :: 't' :: 'p' :: rest.map Char.toLower)) "nan".data
        = false from rfl] at h2
    simp at h2

theorem is_literal_of_floatOk (v : Value) (h : pyFloatOk v = true) :
    is_literal_value v = true := by
  show (dateIndicators.any (fun ind => strContains (pyLower (pyStr v)) ind)
    || unitIndicators.any (fun u => strContains (pyLower (pyStr v)) u)
    || pyFloatOk v
    || phraseIndicators.any (fun w => strContains (pyLower (pyStr v)) w)) = true
  rw [h]
  simp

/-! Helper lemmas about the build loop. -/

theorem processRows_triples (i : Nat) (rows : List Row) :
    (processRows i rows).1 = rows.filterMap (fun r => (processRow r).toOption) := by
  induction rows generalizing i with
  | nil => rfl
  | cons r rs ih =>
    unfold processRows
    cases hp : processRow r with
    | ok t => simp [hp, Except.toOption, ih]
    | error e => simp [hp, Except.toOption, ih]

theorem processRows_log (rows : List Row) :
    ∀ (i j : Nat) (hj : j < rows.length) (e : String),
    processRow (rows.get ⟨j, hj⟩) = .error e →
    ("  WARNING: Error processing row " ++ toString (i + j) ++ ": " ++ e)
      ∈ (processRows i rows).2 := by
  induction rows with
  | nil =>
    intro i j hj
    exact absurd hj (by simp)
  | cons r rs ih =>
    intro i j hj e he
    cases j with
    | zero =>
      have he0 : processRow r = .error e := he
      unfold processRows
      rw [he0, Nat.add_zero]
      exact List.mem_cons_self _ _
    | succ j2 =>
      have he2 : processRow (rs.get ⟨j2, Nat.lt_of_succ_lt_succ hj⟩) = .error e := he
      have hmem := ih (i + 1) j2 (Nat.lt_of_succ_lt_succ hj) e he2
      unfold processRows
      rw [show i + (j2 + 1) = (i + 1) + j2 from by omega]
      cases hp : processRow r with
      | ok t => simpa using hmem
      | error e2 =>
        simp only [hp]
        exact List.mem_cons_of_mem _ hmem

theorem build_append (sources : List Source) :
    ∀ g : List Triple,
    csv_to_rdf_build g sources = g ++ csv_to_rdf_build [] sources := by
  induction sources with
  | nil =>
    intro g
    simp [csv_to_rdf_build]
  | cons s ss ih =>
    intro g
    rw [show csv_to_rdf_build g (s :: ss) = csv_to_rdf_build (csvBuildStep g s) ss
          from rfl,
        ih (csvBuildStep g s),
        show csv_to_rdf_build [] (s :: ss) = csv_to_rdf_build (csvBuildStep [] s) ss
          from rfl,
        ih (csvBuildStep [] s)]
    simp [csvBuildStep]

theorem string_data_append (x y : String) : (x ++ y).data = x.data ++ y.data := rfl

/-! Claim theorems. -/

/-- C1, counterexample: the claim says a literal-indicator match forces a
literal because the forced-literal rule is evaluated first; but
`should_be_uri` tests the `http` prefix before `is_literal_value` is ever
consulted, so the text "http-server" — which contains the bare-hyphen
indicator — is classified as a reference, not a literal. -/
theorem classify_http_beats_indicator :
    is_literal_value (.vStr "http-server") = true
    ∧ classify_object (.vStr "http-server")
        = .uri "http://example.org/lodlam/http-server" := by
  refine ⟨by decide, by decide⟩

/-- C1, amended: a value whose lower-cased text contains a literal-indicator
substring is classified as a literal, unless its stripped raw text starts
with `http`, in which case the forced-reference rule wins. -/
theorem classify_indicator_literal_unless_http (v : Value)
    (h1 : is_literal_value v = true)
    (h2 : pyStartsWith (pyStrip (pyStr v)) "http" = false) :
    (classify_object v).isLit = true := by
  have hu : should_be_uri v = false := by
    show (pyStartsWith (pyStrip (pyStr v)) "http" ||
          (match (pyStrip (pyStr v)).data with
           | [] => false
           | c :: _ => c.isUpper && !(is_literal_value v))) = false
    rw [h2, Bool.false_or]
    cases hd : (pyStrip (pyStr v)).data with
    | nil => rfl
    | cons c t => simp [h1]
  simp only [classify_object, hu, Bool.false_eq_true, if_false]
  cases v <;> rfl

theorem classify_indicator_literal_unless_http_witness :
    (classify_object (.vStr "18th century")).isLit = true :=
  classify_indicator_literal_unless_http (.vStr "18th century")
    (by decide) (by decide)

/-- C2: classification yields a reference for every value whose raw text
starts with `http` (independent of the indicator checks), and for every
value whose first character is uppercase when no literal indicator matches
and the value does not parse as a number (the latter two conditions being
exactly `is_literal_value = false`). -/
theorem classify_object_reference_cases (v : Value)
    (h : pyStartsWith (pyStr v) "http" = true ∨
         (firstCharUpper (pyStr v) = true ∧ is_literal_value v = false)) :
    classify_object v = .uri (create_uri_str v) := by
  have hform : should_be_uri v
      = (pyStartsWith (pyStrip (pyStr v)) "http" ||
         (match (pyStrip (pyStr v)).data with
          | [] => false
          | c :: _ => c.isUpper && !(is_literal_value v))) := rfl
  have hu : should_be_uri v = true := by
    rcases h with h | ⟨hup, hlit⟩
    · have hs : pyStartsWith (pyStrip (pyStr v)) "http" = true :=
        strip_startsWith (pyStr v).data "http".data (by decide) (by decide) h
      rw [hform, hs, Bool.true_or]
    · cases hd : (pyStr v).data with
      | nil => simp [firstCharUpper, hd] at hup
      | cons c t =>
        have hcup : c.isUpper = true := by simpa [firstCharUpper, hd] using hup
        obtain ⟨t2, ht2⟩ := strip_head c t (isUpper_not_white c hcup)
        have hdata : (pyStrip (pyStr v)).data = c :: t2 := by
          show pyStripList (pyStr v).data = c :: t2
          rw [hd]
          exact ht2
        rw [hform, hdata]
        simp [hcup, hlit]
  simp [classify_object, hu]

theorem classify_object_reference_cases_witness :
    classify_object (.vStr "Mount_Longevity")
      = .uri (create_uri_str (.vStr "Mount_Longevity")) :=
  classify_object_reference_cases (.vStr "Mount_Longevity")
    (Or.inr ⟨by decide, by decide⟩)

/-- C3, counterexample: the claim says sanitizing replaces internal
whitespace with underscores, but `clean_uri_string` only replaces the
space character; a tab is dropped by the final character filter instead of
becoming an underscore, so the code and the spec's wording disagree on
"a\tb". -/
theorem create_uri_whitespace_counterexample :
    create_uri_str (.vStr "a\tb") = "http://example.org/lodlam/ab"
    ∧ mint_reference_spec "a\tb" = "http://example.org/lodlam/a_b"
    ∧ create_uri_str (.vStr "a\tb") ≠ mint_reference_spec "a\tb" := by
  refine ⟨by decide, by decide, by decide⟩

/-- C3, amended: on trimmed text, `create_uri` passes `http://`/`https://`
prefixed text through unchanged and otherwise mints the default-namespace
reference with the sanitized text, where sanitizing strips parentheses and
commas, replaces internal space characters with underscores (other
whitespace is stripped by the final filter), and strips every remaining
character outside word characters, hyphen, underscore and period; an empty
sanitized result passes through with an empty local name. -/
theorem create_uri_spec_refinement (s : String) (h : pyStrip s = s) :
    create_uri_str (.vStr s) = mint_reference_spec_fixed s := by
  have hform : create_uri_str (.vStr s)
      = (if pyStartsWith (pyStrip s) "http://" || pyStartsWith (pyStrip s) "https://"
         then pyStrip s else exBase ++ clean_uri_string (pyStrip s)) := rfl
  rw [hform, h]
  rfl

theorem create_uri_spec_refinement_witness :
    create_uri_str (.vStr "Summer Palace (ruins)")
      = mint_reference_spec_fixed "Summer Palace (ruins)" :=
  create_uri_spec_refinement "Summer Palace (ruins)" (by decide)

/-- C4: `parse_property` splits on the first colon; a prefix found
case-insensitively in the namespace table yields the namespace base plus
the unmodified local name; an unknown prefix yields the default namespace
plus the whole original string with colons replaced by underscores; text
with no colon yields the default namespace plus the text unmodified. -/
theorem resolve_predicate_spec :
    (∀ (pre loc : String), (∀ a ∈ pre.data, (a == ':') = false) →
      pyStrip (pre ++ ":" ++ loc) = pre ++ ":" ++ loc →
      parse_property (pre ++ ":" ++ loc)
        = (match nsLookup (pyLower pre) with
           | some base => base ++ loc
           | none => exBase ++ pyReplaceColonUnderscore (pre ++ ":" ++ loc)))
    ∧ (∀ s : String, (∀ a ∈ s.data, (a == ':') = false) → pyStrip s = s →
        parse_property s = exBase ++ s)
    ∧ parse_property "dcterms:creator" = dctermsNS ++ "creator"
    ∧ parse_property "unknownprefix:foo" = exBase ++ "unknownprefix_foo" := by
  refine ⟨?_, ?_, by decide, by decide⟩
  · intro pre loc hnc htrim
    have hstrip : pyStripList (pre ++ ":" ++ loc).data = (pre ++ ":" ++ loc).data :=
      congrArg String.data htrim
    have hdata : (pre ++ ":" ++ loc).data = pre.data ++ ':' :: loc.data := by
      rw [string_data_append, string_data_append,
        show (":" : String).data = [':'] from rfl, List.append_assoc]
      rfl
    have hform : parse_property (pre ++ ":" ++ loc)
        = (match splitFirst ':' (pyStripList (pre ++ ":" ++ loc).data) with
           | some (p2, l2) =>
             match nsLookup (String.mk (p2.map Char.toLower)) with
             | some base => base ++ String.mk l2
             | none => exBase ++ pyReplaceColonUnderscore
                 (String.mk (pyStripList (pre ++ ":" ++ loc).data))
           | none => exBase ++ String.mk (pyStripList (pre ++ ":" ++ loc).data)) := rfl
    rw [hform, hstrip, hdata, splitFirst_append ':' pre.data loc.data hnc]
    cases hns : nsLookup (pyLower pre) with
    | some base =>
      have hns2 : nsLookup (String.mk (pre.data.map Char.toLower)) = some base := hns
      simp only [hns2]
    | none =>
      have hns2 : nsLookup (String.mk (pre.data.map Char.toLower)) = none := hns
      simp only [hns2]
      rw [← hdata]
  · intro s hnc htrim
    have hstrip : pyStripList s.data = s.data := congrArg String.data htrim
    have hform : parse_property s
        = (match splitFirst ':' (pyStripList s.data) with
           | some (p2, l2) =>
             match nsLookup (String.mk (p2.map Char.toLower)) with
             | some base => base ++ String.mk l2
             | none => exBase ++ pyReplaceColonUnderscore
                 (String.mk (pyStripList s.data))
           | none => exBase ++ String.mk (pyStripList s.data)) := rfl
    rw [hform, hstrip, splitFirst_none ':' s.data hnc]

theorem resolve_predicate_spec_witness :
    parse_property ("DCTERMS" ++ ":" ++ "creator") = dctermsNS ++ "creator"
    ∧ parse_property "height" = exBase ++ "height" := by
  constructor
  · have h := resolve_predicate_spec.1 "DCTERMS" "creator" (by decide) (by decide)
    rw [h]
    decide
  · exact resolve_predicate_spec.2.1 "height" (by decide) (by decide)

/-- C5, counterexample: the claim says every value matching a numeric parse
yields a literal with the corresponding numeric datatype; but for the
string value "42" the row loop falls to `Literal(str(obj_value))`
(the `isinstance` check fails) and emits a plain literal with no datatype. -/
theorem classify_numeric_text_untyped :
    pyFloatParsesStr "42" = true
    ∧ classify_object (.vStr "42") = .lit "42" none none
    ∧ classify_object (.vStr "42") ≠ .lit "42" (some xsdInteger) none
    ∧ classify_object (.vStr "42") ≠ .lit "42" (some xsdFloat) none := by
  refine ⟨by decide, by decide, by decide, by decide⟩

/-- C5, amended: values arriving as native ints or floats are classified as
literals carrying the XSD integer/float datatype (preserving the caller's
numeric type, not reparsed); numeric text is classified as a literal via
the numeric-parse indicator but carries no datatype. -/
theorem classify_numeric_datatypes :
    (∀ n : Int, classify_object (.vInt n) = .lit (intRepr n) (some xsdInteger) none)
    ∧ (∀ r : String, floatReprOk r = true →
        classify_object (.vFloat r) = .lit r (some xsdFloat) none)
    ∧ (∀ s : String, pyFloatParsesStr s = true →
        classify_object (.vStr s) = .lit s none none) := by
  refine ⟨?_, ?_, ?_⟩
  · intro n
    obtain ⟨c, t, hd, hc⟩ := intRepr_head n
    have hfacts : isPyWhite c = false ∧ c.isUpper = false ∧ (c == 'h') = false := by
      rcases hc with hc | rfl
      · exact mem_digitChars_facts c hc
      · exact ⟨by decide, by decide, by decide⟩
    have hu : should_be_uri (.vInt n) = false :=
      should_be_uri_false_of_head (.vInt n) c t hd hfacts.1 hfacts.2.1 hfacts.2.2
    simp [classify_object, hu]
  · intro r hr
    cases hd : r.data with
    | nil => simp [floatReprOk, hd] at hr
    | cons c t =>
      have hc : c ∈ digitChars ∨ c = '-' ∨ c = 'i' ∨ c = 'n' := by
        have hc0 : (digitChars.contains c || c == '-' || c == 'i' || c == 'n') = true := by
          simpa [floatReprOk, hd] using hr
        simp only [Bool.or_eq_true, beq_iff_eq] at hc0
        rcases hc0 with ((h1 | h1) | h1) | h1
        · exact Or.inl (List.mem_of_elem_eq_true h1)
        · exact Or.inr (Or.inl h1)
        · exact Or.inr (Or.inr (Or.inl h1))
        · exact Or.inr (Or.inr (Or.inr h1))
      have hfacts : isPyWhite c = false ∧ c.isUpper = false ∧ (c == 'h') = false := by
        rcases hc with hc | rfl | rfl | rfl
        · exact mem_digitChars_facts c hc
        · exact ⟨by decide, by decide, by decide⟩
        · exact ⟨by decide, by decide, by decide⟩
        · exact ⟨by decide, by decide, by decide⟩
      have hu : should_be_uri (.vFloat r) = false :=
        should_be_uri_false_of_head (.vFloat r) c t hd hfacts.1 hfacts.2.1 hfacts.2.2
      simp [classify_object, hu]
  · intro s hp
    have hlit : is_literal_value (.vStr s) = true := is_literal_of_floatOk (.vStr s) hp
    have hhttp : pyStartsWith (pyStrip s) "http" = false := pyFloatParses_not_http s hp
    have hu : should_be_uri (.vStr s) = false := by
      show (pyStartsWith (pyStrip s) "http" ||
            (match (pyStrip s).data with
             | [] => false
             | c :: _ => c.isUpper && !(is_literal_value (.vStr s)))) = false
      rw [hhttp, Bool.false_or]
      cases hdd : (pyStrip s).data with
      | nil => rfl
      | cons c t => simp [hlit]
    simp [classify_object, hu]

theorem classify_numeric_datatypes_witness :
    classify_object (.vInt 42) = .lit (intRepr 42) (some xsdInteger) none
    ∧ classify_object (.vFloat "3.14") = .lit "3.14" (some xsdFloat) none
    ∧ classify_object (.vStr "3.14") = .lit "3.14" none none :=
  ⟨classify_numeric_datatypes.1 42,
   classify_numeric_datatypes.2.1 "3.14" (by decide),
   classify_numeric_datatypes.2.2 "3.14" (by decide)⟩

/-- C6: a source without all three required columns contributes zero
triples, emits one diagnostic, does not raise past the source boundary
(per-source processing is a total function), and the remaining sources are
processed as if it were absent. -/
theorem csv_missing_columns_skips (name : String) (cols : List String)
    (rows : List Row) (rest : List Source)
    (h : (requiredCols.all fun c => cols.contains c) = false) :
    processSource (.table name cols rows)
      = ([], ["  ERROR: Missing required columns in " ++ name])
    ∧ csv_to_rdf_build [] (.table name cols rows :: rest)
      = csv_to_rdf_build [] rest := by
  have h1 : processSource (.table name cols rows)
      = ([], ["  ERROR: Missing required columns in " ++ name]) := by
    show (if (requiredCols.all fun c => cols.contains c) = true then processRows 0 rows
          else ([], ["  ERROR: Missing required columns in " ++ name]))
        = ([], ["  ERROR: Missing required columns in " ++ name])
    rw [if_neg (show ¬((requiredCols.all fun c => cols.contains c) = true) from by
      rw [h]
      exact Bool.false_ne_true)]
  refine ⟨h1, ?_⟩
  rw [show csv_to_rdf_build [] (.table name cols rows :: rest)
        = csv_to_rdf_build (csvBuildStep [] (.table name cols rows)) rest from rfl,
      show csvBuildStep [] (.table name cols rows) = [] from by
        simp [csvBuildStep, h1]]

theorem csv_missing_columns_skips_witness :
    processSource demoBad = ([], ["  ERROR: Missing required columns in broken.csv"])
    ∧ csv_to_rdf_build [] [demoBad, demoTable] = csv_to_rdf_build [] [demoTable] :=
  csv_missing_columns_skips "broken.csv" ["Subject", "Property"] [demoRow1]
    [demoTable] (by decide)

/-- C7: in a source with valid columns, the triples produced are exactly
those of the successfully processed rows (a failing row is skipped and
every other row is still processed), each failing row is logged with its
row index, and a source with failing rows never prevents the remaining
sources of the batch from contributing their triples. -/
theorem csv_row_failure_isolated (name : String) (cols : List String)
    (rows : List Row) (rest : List Source)
    (hcols : (requiredCols.all fun c => cols.contains c) = true) :
    (processSource (.table name cols rows)).1
      = rows.filterMap (fun r => (processRow r).toOption)
    ∧ (∀ (j : Nat) (hj : j < rows.length) (e : String),
        processRow (rows.get ⟨j, hj⟩) = .error e →
        ("  WARNING: Error processing row " ++ toString j ++ ": " ++ e)
          ∈ (processSource (.table name cols rows)).2)
    ∧ csv_to_rdf_build [] (.table name cols rows :: rest)
      = (processSource (.table name cols rows)).1 ++ csv_to_rdf_build [] rest := by
  have hps : processSource (.table name cols rows) = processRows 0 rows := by
    show (if (requiredCols.all fun c => cols.contains c) = true then processRows 0 rows
          else ([], ["  ERROR: Missing required columns in " ++ name]))
        = processRows 0 rows
    rw [if_pos hcols]
  refine ⟨?_, ?_, ?_⟩
  · rw [hps]
    exact processRows_triples 0 rows
  · intro j hj e he
    rw [hps]
    have hmem := processRows_log rows 0 j hj e he
    simpa using hmem
  · rw [show csv_to_rdf_build [] (.table name cols rows :: rest)
          = csv_to_rdf_build (csvBuildStep [] (.table name cols rows)) rest from rfl,
        build_append rest (csvBuildStep [] (.table name cols rows))]
    simp [csvBuildStep]

theorem csv_row_failure_isolated_witness :
    (processSource demoTable).1
      = [demoRow1, demoRowBad, demoRow2].filterMap (fun r => (processRow r).toOption)
    ∧ ("  WARNING: Error processing row 1: KeyError: Property")
        ∈ (processSource demoTable).2 := by
  have h := csv_row_failure_isolated "5__Throne.csv" requiredCols
    [demoRow1, demoRowBad, demoRow2] [] (by decide)
  exact ⟨h.1, h.2.1 1 (by decide) "KeyError: Property" (by rfl)⟩

/-- C8, counterexample: the claim says a serialization failure of one
output format is reported for that format only and never aborts the run;
but the primary Turtle serialization of `csv_to_rdf` is unguarded, so an
unwritable Turtle target aborts the whole run, and in `tei_to_rdf` even
the secondary RDF/XML serialization is unguarded and aborts the run. -/
theorem serialization_failure_aborts :
    csv_run [] (fun f => !(f == "turtle")) = .error "SerializationError: turtle"
    ∧ tei_serialize (fun f => !(f == "xml")) = .error "SerializationError: xml" :=
  ⟨rfl, rfl⟩

/-- C8, amended: in the CSV pipeline only the secondary RDF/XML export is
guarded — when the primary Turtle serialization succeeds, the run succeeds
regardless of the RDF/XML target, and an unwritable RDF/XML target merely
puts a failure report in the log. -/
theorem csv_secondary_export_guarded (sources : List Source)
    (writable : String → Bool) (h : writable "turtle" = true) :
    csv_run sources writable
      = .ok (csv_to_rdf_build [] sources, export_rdf_xml_log writable)
    ∧ (writable "xml" = false →
        export_rdf_xml_log writable = ["  ✗ RDF/XML export failed"]) := by
  constructor
  · simp [csv_run, h]
  · intro hx
    simp [export_rdf_xml_log, hx]

theorem csv_secondary_export_guarded_witness :
    csv_run [demoTable] (fun f => f == "turtle")
      = .ok (csv_to_rdf_build [] [demoTable],
             export_rdf_xml_log (fun f => f == "turtle"))
    ∧ export_rdf_xml_log (fun f => f == "turtle")
        = ["  ✗ RDF/XML export failed"] := by
  have h := csv_secondary_export_guarded [demoTable] (fun f => f == "turtle")
    (by decide)
  exact ⟨h.1, h.2 (by decide)⟩

/-- C9, counterexample: the claim says the graph accumulator is never read
back during the build phase and no operation depends on its contents; but
the boxers-organizer step of `tei_to_rdf` tests graph membership, so what
it appends depends on the graph built so far: on `gBoxersDemo` it appends
an organizer triple that it does not append on the empty graph. -/
theorem tei_build_reads_graph :
    tei_link_boxers gBoxersDemo ≠ gBoxersDemo ++ tei_link_boxers [] := by decide

/-- C9, amended: the CSV builder's accumulator is append-only — the build
phase over any initial graph equals that graph followed by triples that do
not depend on it; the TEI builder, by contrast, reads the graph once (the
boxers membership test). -/
theorem csv_build_append_only (g : List Triple) (sources : List Source) :
    csv_to_rdf_build g sources = g ++ csv_to_rdf_build [] sources :=
  build_append sources g

/-- C10: `tei_to_html` extracts the four header fields unguarded, so a
document missing any one of title, author, publication date or publication
place makes it raise IndexError and produce no output; the RDF document
builder's header extraction is total, only omitting the absent field's
triples. -/
theorem tei_html_header_unguarded (d : TEIDoc)
    (h : d.titles = [] ∨ d.authors = [] ∨ d.pubDates = [] ∨ d.pubPlaces = []) :
    tei_to_html d = .error "IndexError"
    ∧ tei_to_rdf_meta d
      = docTypeTriples ++ titleTriples d ++ authorTriples d ++ dateTriples d
        ++ placeTriples d ++ descTriples d ++ langTriples
    ∧ (d.titles = [] → titleTriples d = [])
    ∧ (d.authors = [] → authorTriples d = [])
    ∧ (d.pubDates = [] → dateTriples d = [])
    ∧ (d.pubPlaces = [] → placeTriples d = []) := by
  obtain ⟨ts, as2, ds, ps, ss⟩ := d
  refine ⟨?_, rfl, ?_, ?_, ?_, ?_⟩
  · rcases h with h | h | h | h
    · subst h
      rfl
    · subst h
      cases ts <;> rfl
    · subst h
      cases ts <;> cases as2 <;> rfl
    · subst h
      cases ts <;> cases as2 <;> cases ds <;> rfl
  · intro h0
    subst h0
    rfl
  · intro h0
    subst h0
    rfl
  · intro h0
    subst h0
    rfl
  · intro h0
    subst h0
    rfl

theorem tei_html_header_unguarded_witness :
    tei_to_html ⟨[], ["Qing Imperial Court"], ["1901-02-13"], ["Beijing"], ["d"]⟩
      = .error "IndexError" :=
  (tei_html_header_unguarded _ (Or.inl rfl)).1

end Lodlam
